import Mathlib

/-!
# Verification of the Excel-interviewer server against its specification

Shallow embedding of the repository's interview flow controller
(`src/server/services/interviewService.ts`), spreadsheet inspector
(`ExcelProcessor`, `src/unnamed/part_001`), and the demo-variant HTTP route
handlers (`registerRoutes`, `src/unnamed/part_001`).

Modelling conventions:
* JS numbers are embedded as exact rationals (`ℚ`); every score handled by the
  controller is a small decimal, so the idealised rational semantics coincides
  with the float semantics on all values of interest.  `Math.round` is
  `jsRound` below (round half toward positive infinity).
* Database rows are records in an explicit `StorageState`; each `storage.*`
  call of the source becomes a pure state-passing function.  Row ids generated
  by the database are modelled as insertion counters; timestamps are dropped
  (message order is insertion order, which is what `ORDER BY timestamp` yields).
* External effects (the Gemini AI client, reading an uploaded workbook from
  disk) are an `Env` of fallible oracles; a thrown JS exception is an
  `Except.error`, and a turn that throws ends in `TurnResult.fault` carrying
  the storage state as already persisted at the point of the throw (writes are
  not rolled back, as in the source).
* A `score` column that is a non-numeric string (`Number(...)` gives `NaN`)
  is modelled as `none`; `Number(q.score) || 0` is `(q.score).getD 0`.
-/

/-- JS `Math.round`: round half toward positive infinity. -/
def jsRound (x : ℚ) : ℤ := ⌊x + 1/2⌋

theorem jsRound_eq (x : ℚ) (z : ℤ) (h1 : (z : ℚ) ≤ x + 1/2) (h2 : x + 1/2 < z + 1) :
    jsRound x = z := by
  unfold jsRound
  rw [Int.floor_eq_iff]
  exact ⟨h1, by exact_mod_cast h2⟩

/-- Clamp a score into [0,100]: `Math.max(0, Math.min(100, x))`. -/
def clampScore (x : ℚ) : ℚ := max 0 (min 100 x)

theorem clampScore_nonneg (x : ℚ) : 0 ≤ clampScore x := le_max_left 0 _

theorem clampScore_le_100 (x : ℚ) : clampScore x ≤ 100 :=
  max_le (by norm_num) (min_le_left 100 x)

theorem clampScore_of_ge_100 (x : ℚ) (h : 100 ≤ x) : clampScore x = 100 := by
  unfold clampScore
  rw [min_eq_left h]
  exact max_eq_right (by norm_num)

/-- Char-list prefix test (helper for JS `String.prototype.includes`). -/
def charsStartsWith : List Char → List Char → Bool
  | [], _ => true
  | _ :: _, [] => false
  | p :: ps, s :: ss => p == s && charsStartsWith ps ss

/-- Char-list substring test (helper for JS `String.prototype.includes`). -/
def charsContains (s pat : List Char) : Bool :=
  charsStartsWith pat s ||
    match s with
    | [] => false
    | _ :: rest => charsContains rest pat

/-- JS `s.includes(pat)`: substring containment. -/
def strIncludes (s pat : String) : Bool := charsContains s.data pat.data

/-- Question / script-item category. -/
inductive Category where
  | conceptual
  | practical
  | explanation
  | behavioral
deriving DecidableEq, Repr

/-- Session status enum of the `interview_sessions` table. -/
inductive SessionStatus where
  | in_progress
  | completed
  | abandoned
deriving DecidableEq, Repr

/-- Chat message sender enum. -/
inductive Sender where
  | ai
  | user
deriving DecidableEq, Repr

/-- Chat message type enum. -/
inductive MessageType where
  | text
  | file_upload
  | template_download
  | task
deriving DecidableEq, Repr

/-- The `metadata` jsonb payloads actually written by the controller. -/
inductive Metadata where
  | filePath (path : String)
  | template (templateType : String) (timeLimit : Option Nat)
  | complete (finalScore : ℤ)
deriving DecidableEq, Repr

/-- One row of `interview_sessions` (timestamps abstracted; `completedAt`
kept as a Boolean marker that the column was set). -/
structure InterviewSession where
  id : String
  userId : String
  status : SessionStatus
  currentQuestionIndex : Int
  totalQuestions : Nat
  completedAt : Bool := false
  overallScore : Option ℚ := none
  practicalScore : Option ℚ := none
  conceptualScore : Option ℚ := none
  explanationScore : Option ℚ := none
  behavioralScore : Option ℚ := none
  strengths : Option (List String) := none
  improvements : Option (List String) := none
  recommendations : Option (List String) := none
deriving DecidableEq, Repr

/-- One row of `chat_messages` (id and timestamp abstracted; the message log
list is kept in insertion order, which is timestamp order). -/
structure ChatMessage where
  sessionId : String
  sender : Sender
  content : String
  messageType : MessageType
  metadata : Option Metadata := none
deriving DecidableEq, Repr

/-- One row of `interview_questions`.  The decimal `score` column is stored by
the controller as `evaluation.score.toString()` and read back through
`Number(...)`; we keep the parsed numeric value, `none` for a non-numeric or
null column. -/
structure InterviewQuestion where
  id : String
  sessionId : String
  questionIndex : Int
  category : Category
  question : String
  expectedAnswer : Option String := none
  userAnswer : String
  fileUploaded : Bool := false
  filePath : Option String := none
  score : Option ℚ := none
  isCompleted : Bool := false
deriving DecidableEq, Repr

/-- One row of `excel_evaluations` (the `evaluationDetails` jsonb blob is
kept as the list of issues, the only part the controller ever reads back). -/
structure ExcelEvaluation where
  questionId : String
  filePath : String
  formulaAccuracy : ℚ
  structureScore : ℚ
  bestPracticesScore : ℚ
  issues : List String
deriving DecidableEq, Repr

/-- The persistent store (`DatabaseStorage`), plus `evalCalls`, an
instrumentation counter (not a table) that counts invocations of the external
evaluation services (Gemini client calls and workbook reads), used to state
"no scoring call happened on this turn". -/
structure StorageState where
  sessions : List (String × InterviewSession)
  messages : List ChatMessage
  questions : List InterviewQuestion
  excelEvals : List ExcelEvaluation
  evalCalls : Nat
deriving DecidableEq, Repr

def emptyStorage : StorageState := ⟨[], [], [], [], 0⟩

/-- `storage.addChatMessage`. -/
def addChatMessage (st : StorageState) (m : ChatMessage) : StorageState :=
  { st with messages := st.messages ++ [m] }

/-- `storage.addInterviewQuestion`; the database-generated row id is modelled
as the insertion counter. -/
def addInterviewQuestion (st : StorageState)
    (q : String → InterviewQuestion) : StorageState :=
  { st with questions := st.questions ++ [q (toString st.questions.length)] }

/-- `storage.addExcelEvaluation`. -/
def addExcelEvaluation (st : StorageState) (e : ExcelEvaluation) : StorageState :=
  { st with excelEvals := st.excelEvals ++ [e] }

/-- Replace the value stored under key `k` in an association list. -/
def updateAssoc (l : List (String × InterviewSession)) (k : String)
    (v : InterviewSession) : List (String × InterviewSession) :=
  l.map fun p => if k = p.1 then (p.1, v) else p

/-- `storage.updateInterviewSession`: apply the partial update `f` to the row,
returning the updated row (`undefined`, i.e. `none`, when the id is absent). -/
def updateInterviewSession (st : StorageState) (sid : String)
    (f : InterviewSession → InterviewSession) :
    StorageState × Option InterviewSession :=
  match st.sessions.lookup sid with
  | none => (st, none)
  | some s =>
    ({ st with sessions := updateAssoc st.sessions sid (f s) }, some (f s))

/-- `storage.getSessionMessages` (ordered by timestamp = insertion order). -/
def getSessionMessages (st : StorageState) (sid : String) : List ChatMessage :=
  st.messages.filter fun m => m.sessionId == sid

/-- Stable insert for the `ORDER BY question_index` of
`storage.getSessionQuestions`. -/
def insertByIndex (q : InterviewQuestion) :
    List InterviewQuestion → List InterviewQuestion
  | [] => [q]
  | r :: rs =>
    if r.questionIndex ≤ q.questionIndex then r :: insertByIndex q rs
    else q :: r :: rs

/-- Insertion sort by `question_index` (kernel-computable stand-in for the
database sort). -/
def sortByQuestionIndex : List InterviewQuestion → List InterviewQuestion
  | [] => []
  | q :: qs => insertByIndex q (sortByQuestionIndex qs)

/-- `storage.getSessionQuestions` (ordered by `question_index`). -/
def getSessionQuestions (st : StorageState) (sid : String) :
    List InterviewQuestion :=
  sortByQuestionIndex (st.questions.filter fun q => q.sessionId == sid)

theorem sanity_jsRound : jsRound (90 * 0.5 + 70 * 0.25 + 50 * 0.15 + 80 * 0.1) = 78 :=
  jsRound_eq _ 78 (by norm_num) (by norm_num)

/-!
## Spreadsheet inspector (`ExcelProcessor`, `src/unnamed/part_001`)

A workbook is modelled after what the inspector reads from the XLSX library:
the ordered sheet list (`workbook.SheetNames` with `workbook.Sheets[...]`),
each sheet's cell grid restricted to the `!ref` range (only the optional
formula string `cell.f` of each cell is inspected), and the number of data
rows `XLSX.utils.sheet_to_json(worksheet).length` (the row conversion itself
is third-party library behaviour, taken as an input). -/

/-- A cell as seen by the inspector: `cell.f` is the formula string, absent
cells are `none`. -/
structure Cell where
  f : Option String := none
deriving DecidableEq, Repr

/-- A worksheet: the cell grid in `!ref` scan order (rows outer, columns
inner) and the `sheet_to_json` row count. -/
structure Worksheet where
  grid : List (List Cell)
  jsonRowCount : Nat
deriving DecidableEq, Repr

/-- A workbook: `SheetNames` paired with their sheets, in order. -/
structure Workbook where
  sheets : List (String × Worksheet)
deriving DecidableEq, Repr

/-- Result record of `evaluateSalesAnalysis`. -/
structure SalesScore where
  formulaScore : ℚ
  structureScore : ℚ
  issues : List String
deriving DecidableEq, Repr

/-- The `details` blob of `ExcelEvaluationResult` (fields the code writes). -/
structure EvaluationDetails where
  formulasFound : List String
  expectedFormulas : List String
  sheetCount : Nat
  sheetNames : List String
  namedRanges : List String
  issues : List String
  recommendations : List String
deriving DecidableEq, Repr

/-- `ExcelEvaluationResult`. -/
structure ExcelEvaluationResult where
  formulaAccuracy : ℚ
  structureScore : ℚ
  bestPracticesScore : ℚ
  details : EvaluationDetails
deriving DecidableEq, Repr

namespace ExcelProcessor

/-- `ExcelProcessor.extractFormulas`: scan the range row-major and collect
`cell.f` for every cell whose formula is present (JS truthiness also skips an
empty-string formula). -/
def extractFormulas (ws : Worksheet) : List String :=
  ws.grid.flatMap fun row =>
    row.filterMap fun cell =>
      match cell.f with
      | some f => if f == "" then none else some f
      | none => none

/-- Case-insensitive formula search:
`formulas.some(f => f.toUpperCase().includes(pat))`. -/
def anyFormulaHas (formulas : List String) (pat : String) : Bool :=
  formulas.any fun f => strIncludes f.toUpper pat

/-- `ExcelProcessor.evaluateSalesAnalysis` (the `expectedTemplate` argument is
unused by the source body as well). -/
def evaluateSalesAnalysis (ws : Worksheet) (_expectedTemplate : List String) :
    SalesScore :=
  let formulas := extractFormulas ws
  let hasXLOOKUP := anyFormulaHas formulas "XLOOKUP"
  let hasSUMIFS := anyFormulaHas formulas "SUMIFS"
  let hasINDEX := anyFormulaHas formulas "INDEX"
  let hasMATCH := anyFormulaHas formulas "MATCH"
  let lookupOk := hasXLOOKUP || (hasINDEX && hasMATCH)
  let formulaScore : ℚ := 60 + (if lookupOk then 15 else 0) + (if hasSUMIFS then 15 else 0)
  let issues : List String :=
    (if lookupOk then [] else ["Missing advanced lookup formulas (XLOOKUP or INDEX/MATCH)"]) ++
    (if hasSUMIFS then [] else ["Missing SUMIFS for conditional aggregation"])
  let structureScore : ℚ := 60 + (if 0 < ws.jsonRowCount then 20 else 0)
  ⟨formulaScore, structureScore, issues⟩

/-- `ExcelProcessor.evaluateBestPractices`. -/
def evaluateBestPractices (wb : Workbook) : ℚ :=
  let sheetNames := wb.sheets.map (·.1)
  let hasDescriptiveNames :=
    sheetNames.all fun name => 2 < name.length && !(strIncludes name "Sheet")
  let score : ℚ := 50 + (if hasDescriptiveNames then 20 else 0)
  let score := score + (if 1 < sheetNames.length then 15 else 0)
  let hasComplexFormulas := wb.sheets.any fun sw =>
    (extractFormulas sw.2).any fun f => 20 < f.length || strIncludes f "IF("
  let score := score + (if hasComplexFormulas then 15 else 0)
  min 100 score

/-- Accumulator of the per-sheet loop of `evaluateExcelFile`. -/
structure ExcelAccum where
  formulaAccuracy : ℚ
  structureScore : ℚ
  formulasFound : List String
  issues : List String
deriving DecidableEq, Repr

/-- One iteration of the `for (const sheetName of sheetNames)` loop of
`evaluateExcelFile`. -/
def sheetStep (expectedSheets : List String) (taskType : String)
    (acc : ExcelAccum) (sw : String × Worksheet) : ExcelAccum :=
  let formulas := extractFormulas sw.2
  let acc := { acc with formulasFound := acc.formulasFound ++ formulas }
  if taskType == "sales_analysis" then
    let salesScore := evaluateSalesAnalysis sw.2 expectedSheets
    { acc with
      formulaAccuracy := acc.formulaAccuracy + salesScore.formulaScore,
      structureScore := acc.structureScore + salesScore.structureScore,
      issues := acc.issues ++ salesScore.issues }
  else acc

/-- `ExcelProcessor.evaluateExcelFile`, given an already-parsed workbook (the
`XLSX.readFile` disk read is the caller's oracle). -/
def evaluateExcelFile (wb : Workbook) (expectedSheets : List String)
    (taskType : String) : ExcelEvaluationResult :=
  let sheetNames := wb.sheets.map (·.1)
  let hasRequiredSheets := expectedSheets.all fun s => sheetNames.contains s
  let init : ExcelAccum :=
    { formulaAccuracy := 0,
      structureScore := if hasRequiredSheets then 0 else 0 - 20,
      formulasFound := [],
      issues := if hasRequiredSheets then [] else ["Missing required sheets"] }
  let acc := wb.sheets.foldl (sheetStep expectedSheets taskType) init
  let bestPracticesScore := evaluateBestPractices wb
  { formulaAccuracy := clampScore acc.formulaAccuracy,
    structureScore := clampScore acc.structureScore,
    bestPracticesScore := clampScore bestPracticesScore,
    details :=
      { formulasFound := acc.formulasFound,
        expectedFormulas := [],
        sheetCount := sheetNames.length,
        sheetNames := sheetNames,
        namedRanges := [],
        issues := acc.issues,
        recommendations := [] } }

/-- `ExcelProcessor.saveTemplate`, reduced to its fallibility: the two known
template types succeed (the generated workbook buffer and disk write are
external), anything else throws `Unknown template type`. -/
def saveTemplate (templateType : String) : Except String Unit :=
  if templateType == "sales_analysis" || templateType == "data_cleanup" then
    Except.ok ()
  else
    Except.error ("Unknown template type: " ++ templateType)

end ExcelProcessor

/-!
## Interview flow controller (`InterviewService`,
`src/server/services/interviewService.ts`)
-/

/-- `InterviewQuestionTemplate`. -/
structure InterviewQuestionTemplate where
  category : Category
  question : String
  expectedAnswer : Option String := none
  taskType : Option String := none
  timeLimit : Option Nat := none
deriving DecidableEq, Repr

namespace InterviewService

/-- The fixed 8-entry question script (`InterviewService.QUESTION_TEMPLATES`). -/
def QUESTION_TEMPLATES : List InterviewQuestionTemplate :=
  [ { category := .conceptual,
      question := "What are the key differences between VLOOKUP and XLOOKUP? When would you choose one over the other?",
      expectedAnswer := some "XLOOKUP is more flexible, can search left-to-right and right-to-left, returns arrays, has better error handling, and supports approximate and exact matches more intuitively than VLOOKUP." },
    { category := .conceptual,
      question := "Explain how pivot tables work and when you would use them versus regular formulas for data analysis.",
      expectedAnswer := some "Pivot tables summarize large datasets by grouping and aggregating data dynamically. Use for exploratory analysis, cross-tabulation, and when data structure changes frequently." },
    { category := .practical,
      question := "Complete the data cleanup task. Clean and standardize the messy customer data provided.",
      taskType := some "data_cleanup",
      timeLimit := some 8 },
    { category := .practical,
      question := "Create a sales analysis dashboard with monthly summaries, top products by region, and KPI tracking.",
      taskType := some "sales_analysis",
      timeLimit := some 10 },
    { category := .explanation,
      question := "Explain your approach to the sales analysis task. What formulas did you use and why?" },
    { category := .conceptual,
      question := "How would you optimize Excel performance when working with large datasets (100k+ rows)?",
      expectedAnswer := some "Use efficient formulas (avoid volatile functions), limit array formulas, use tables instead of ranges, minimize cross-sheet references, consider Power Query for data transformation." },
    { category := .behavioral,
      question := "Describe a time when you encountered a #REF! error in Excel. How did you troubleshoot and resolve it?" },
    { category := .conceptual,
      question := "What are dynamic arrays in Excel and how do they differ from traditional array formulas?",
      expectedAnswer := some "Dynamic arrays automatically spill results to adjacent cells, resize automatically, and use the @ operator. They\x27re simpler than Ctrl+Shift+Enter array formulas." } ]

/-- JS array indexing `QUESTION_TEMPLATES[i]` (`undefined` out of range). -/
def templateAt (i : Int) : Option InterviewQuestionTemplate :=
  if 0 ≤ i then QUESTION_TEMPLATES.get? i.toNat else none

/-- Result record of `gemini.evaluateConceptualAnswer`. -/
structure ConceptualEvaluation where
  score : ℚ
  reasoning : String
  strengths : List String
  improvements : List String
deriving DecidableEq, Repr

/-- Result record of `gemini.evaluateExplanation`. -/
structure ExplanationEvaluation where
  score : ℚ
  clarity : ℚ
  accuracy : ℚ
  completeness : ℚ
  feedback : String
deriving DecidableEq, Repr

/-- Result record of `gemini.generateFinalReport`. -/
structure FinalReport where
  strengths : List String
  improvements : List String
  recommendations : List String
deriving DecidableEq, Repr

/-- External collaborators of the controller: the Gemini AI client's three
scoring/report calls and the workbook disk read (`XLSX.readFile`).  Each is a
single best-effort call whose thrown exception is an `Except.error`. -/
structure Env where
  readWorkbook : String → Except String Workbook
  evaluateConceptualAnswer :
    String → String → Option String → Except String ConceptualEvaluation
  evaluateExplanation : String → String → Except String ExplanationEvaluation
  generateFinalReport :
    ℤ → ℤ → ℤ → ℤ → ℤ → List InterviewQuestion → Except String FinalReport

/-- Bump the external-evaluation instrumentation counter (called at each
`await` of an external evaluation service). -/
def bumpEval (st : StorageState) : StorageState :=
  { st with evalCalls := st.evalCalls + 1 }

/-- `InterviewService.startInterview`.  The database-generated session id is
the `newId` argument. -/
def startInterview (st : StorageState) (userId newId : String) :
    StorageState × InterviewSession :=
  let session : InterviewSession :=
    { id := newId, userId := userId, status := .in_progress,
      currentQuestionIndex := -1, totalQuestions := QUESTION_TEMPLATES.length }
  let st1 := { st with sessions := st.sessions ++ [(newId, session)] }
  let st2 := addChatMessage st1
    { sessionId := newId, sender := .ai,
      content := "Welcome to your Excel skills assessment! I\x27m your AI interviewer, and I\x27ll be guiding you through " ++ toString QUESTION_TEMPLATES.length ++ " questions covering conceptual knowledge, practical tasks, and explanations.\n\nThis interview will take approximately 45 minutes and will cover:\n• Conceptual Excel knowledge (25%)\n• Practical Excel tasks (50%)  \n• Explanations and best practices (15%)\n• Behavioral and problem-solving (10%)\n\nLet\x27s begin with our first question. Are you ready to start?",
      messageType := .text }
  (st2, session)

/-- `InterviewService.calculateAverageScore`: `Math.round(total / n)` with
`Number(q.score) || 0` per row, `0` for an empty list. -/
def calculateAverageScore (questions : List InterviewQuestion) : ℤ :=
  if questions.length = 0 then 0
  else
    let total := questions.foldl (fun sum q => sum + q.score.getD 0) (0 : ℚ)
    jsRound (total / (questions.length : ℚ))

/-- `InterviewService.getCurrentQuestionIndex`
(`session?.currentQuestionIndex || 0`). -/
def getCurrentQuestionIndex (st : StorageState) (sid : String) : Int :=
  match st.sessions.lookup sid with
  | some s => s.currentQuestionIndex
  | none => 0

/-- `InterviewService.getLatestQuestionId`
(`questions[questions.length - 1]?.id || ''`). -/
def getLatestQuestionId (st : StorageState) (sid : String) : String :=
  match (getSessionQuestions st sid).getLast? with
  | some q => q.id
  | none => ""

/-- Return record of `evaluatePracticalTask`. -/
structure PracticalResult where
  feedback : String
  score : ℤ
deriving DecidableEq, Repr

/-- The `expectedSheets` template handed to the spreadsheet inspector by
`evaluatePracticalTask`. -/
def expectedSheetsFor (question : InterviewQuestionTemplate) : List String :=
  if question.taskType == some "sales_analysis" then
    ["Monthly_Summary", "Top_Products", "KPI_Dashboard"]
  else ["Clean_Data"]

/-- `InterviewService.evaluatePracticalTask`.  An error carries the storage
state as persisted at the point of the throw. -/
def evaluatePracticalTask (env : Env) (st : StorageState) (sessionId : String)
    (question : InterviewQuestionTemplate) (filePath : String)
    (userExplanation : String) :
    Except (StorageState × String) (StorageState × PracticalResult) :=
  let expectedSheets := expectedSheetsFor question
  let st := bumpEval st
  match env.readWorkbook filePath with
  | .error e => .error (st, "Failed to evaluate Excel file: " ++ e)
  | .ok wb =>
    let evaluation :=
      ExcelProcessor.evaluateExcelFile wb expectedSheets (question.taskType.getD "")
    let overallScore : ℤ := jsRound
      (evaluation.formulaAccuracy * 0.5 +
       evaluation.structureScore * 0.3 +
       evaluation.bestPracticesScore * 0.2)
    let st2 := addInterviewQuestion st fun qid =>
      { id := qid, sessionId := sessionId,
        questionIndex := getCurrentQuestionIndex st sessionId,
        category := question.category, question := question.question,
        userAnswer := userExplanation,
        fileUploaded := true, filePath := some filePath,
        score := some (overallScore : ℚ), isCompleted := true }
    let st3 := addExcelEvaluation st2
      { questionId := getLatestQuestionId st2 sessionId,
        filePath := filePath,
        formulaAccuracy := evaluation.formulaAccuracy,
        structureScore := evaluation.structureScore,
        bestPracticesScore := evaluation.bestPracticesScore,
        issues := evaluation.details.issues }
    let feedback :=
      if 80 ≤ overallScore then "Excellent work on this practical task!"
      else if 60 ≤ overallScore then "Good job on this task."
      else "You completed the task, but there are areas for improvement."
    let feedback :=
      if 0 < evaluation.details.issues.length then
        feedback ++ " Key areas to note: " ++
          String.intercalate ", " evaluation.details.issues ++ "."
      else feedback
    .ok (st3, ⟨feedback, overallScore⟩)

/-- `InterviewService.completeInterview`. -/
def completeInterview (env : Env) (st : StorageState) (sessionId : String) :
    Except (StorageState × String) StorageState :=
  let questions := getSessionQuestions st sessionId
  let practicalScore :=
    calculateAverageScore (questions.filter fun q => q.category == .practical)
  let conceptualScore :=
    calculateAverageScore (questions.filter fun q => q.category == .conceptual)
  let explanationScore :=
    calculateAverageScore (questions.filter fun q => q.category == .explanation)
  let behavioralScore :=
    calculateAverageScore (questions.filter fun q => q.category == .behavioral)
  let overallScore : ℤ := jsRound
    ((practicalScore : ℚ) * 0.5 + (conceptualScore : ℚ) * 0.25 +
     (explanationScore : ℚ) * 0.15 + (behavioralScore : ℚ) * 0.1)
  let st := bumpEval st
  match env.generateFinalReport overallScore practicalScore conceptualScore
      explanationScore behavioralScore questions with
  | .error e => .error (st, e)
  | .ok report =>
    let (st2, _) := updateInterviewSession st sessionId fun s =>
      { s with status := .completed, completedAt := true,
               overallScore := some (overallScore : ℚ),
               practicalScore := some ((practicalScore : ℤ) : ℚ),
               conceptualScore := some ((conceptualScore : ℤ) : ℚ),
               explanationScore := some ((explanationScore : ℤ) : ℚ),
               behavioralScore := some ((behavioralScore : ℤ) : ℚ),
               strengths := some report.strengths,
               improvements := some report.improvements,
               recommendations := some report.recommendations }
    let st3 := addChatMessage st2
      { sessionId := sessionId, sender := .ai,
        content := "Interview completed! Your overall score is " ++
          toString overallScore ++
          "%. Click here to view your detailed results and recommendations.",
        messageType := .text,
        metadata := some (.complete overallScore) }
    .ok st3

/-- The user chat message appended at the start of every turn. -/
def userChatMessage (sessionId userMessage : String)
    (filePath : Option String) : ChatMessage :=
  { sessionId := sessionId, sender := .user, content := userMessage,
    messageType := if filePath.isSome then .file_upload else .text,
    metadata := filePath.map Metadata.filePath }

/-- Outcome of one `processUserMessage` turn.  `fault` is a thrown JS
exception propagating to the HTTP boundary; it carries the storage state as
already persisted (no rollback). -/
inductive TurnResult where
  | ok (st : StorageState) (session : Option InterviewSession)
      (messages : List ChatMessage)
  | fault (st : StorageState) (error : String)
deriving Repr

/-- The storage state as persisted when the turn finishes (normally or by
throwing). -/
def turnState : TurnResult → StorageState
  | .ok st _ _ => st
  | .fault st _ => st

/-- The category dispatch of `processUserMessage` ("Process the response
based on question type"): the if/else-if chain on the current question's
category.  Returns the storage state, the accumulated `aiResponse`, and
`nextQuestionIndex`; a practical question without a file matches no branch
(response stays empty, the index does not advance). -/
def dispatchAnswer (env : Env) (st1 : StorageState)
    (sessionId userMessage : String) (filePath : Option String)
    (currentIndex : Int) (currentQuestion : InterviewQuestionTemplate) :
    Except (StorageState × String) (StorageState × String × Int) :=
  match filePath, currentQuestion.category with
  | some fp, .practical =>
    match evaluatePracticalTask env st1 sessionId currentQuestion fp userMessage with
    | .error e => .error e
    | .ok (st2, evaluation) =>
      .ok (st2,
           "Great! I\x27ve received your Excel file. " ++ evaluation.feedback,
           currentIndex + 1)
  | none, .practical => .ok (st1, "", currentIndex)
  | _, .conceptual =>
    let st2 := bumpEval st1
    match env.evaluateConceptualAnswer currentQuestion.question userMessage
        currentQuestion.expectedAnswer with
    | .error e => .error (st2, e)
    | .ok evaluation =>
      let st3 := addInterviewQuestion st2 fun qid =>
        { id := qid, sessionId := sessionId,
          questionIndex := currentIndex,
          category := currentQuestion.category,
          question := currentQuestion.question,
          expectedAnswer := currentQuestion.expectedAnswer,
          userAnswer := userMessage,
          score := some evaluation.score, isCompleted := true }
      let aiResponse :=
        if 70 ≤ evaluation.score then "Excellent answer! " ++ evaluation.reasoning
        else if 50 ≤ evaluation.score then "Good understanding shown. " ++ evaluation.reasoning
        else "I can see you have some knowledge in this area. " ++ evaluation.reasoning
      .ok (st3, aiResponse, currentIndex + 1)
  | _, .explanation =>
    let st2 := bumpEval st1
    match env.evaluateExplanation "Sales analysis task explanation" userMessage with
    | .error e => .error (st2, e)
    | .ok evaluation =>
      let st3 := addInterviewQuestion st2 fun qid =>
        { id := qid, sessionId := sessionId,
          questionIndex := currentIndex,
          category := currentQuestion.category,
          question := currentQuestion.question,
          userAnswer := userMessage,
          score := some evaluation.score, isCompleted := true }
      .ok (st3, "Thank you for the explanation. " ++ evaluation.feedback,
           currentIndex + 1)
  | _, .behavioral =>
    let st2 := addInterviewQuestion st1 fun qid =>
      { id := qid, sessionId := sessionId,
        questionIndex := currentIndex,
        category := currentQuestion.category,
        question := currentQuestion.question,
        userAnswer := userMessage,
        score := some 80, isCompleted := true }
    .ok (st2,
         "Thank you for sharing that experience. Problem-solving skills are crucial when working with Excel.",
         currentIndex + 1)

/-- `InterviewService.processUserMessage`. -/
def processUserMessage (env : Env) (st : StorageState)
    (sessionId userMessage : String) (filePath : Option String) : TurnResult :=
  match st.sessions.lookup sessionId with
  | none => .fault st "Interview session not found"
  | some session =>
    let st1 := addChatMessage st (userChatMessage sessionId userMessage filePath)
    if session.currentQuestionIndex = -1 then
      -- the script is non-empty, so `QUESTION_TEMPLATES[0]` always exists
      let firstQuestion := QUESTION_TEMPLATES.headD { category := .conceptual, question := "" }
      let aiResponse := "Great! Let\x27s begin with our first question:\n\n" ++ firstQuestion.question
      let (st2, updatedSession) := updateInterviewSession st1 sessionId fun s =>
        { s with currentQuestionIndex := 0 }
      let st3 := addChatMessage st2
        { sessionId := sessionId, sender := .ai, content := aiResponse, messageType := .text }
      .ok st3 updatedSession (getSessionMessages st3 sessionId)
    else
      match templateAt session.currentQuestionIndex with
      | none =>
        -- `QUESTION_TEMPLATES[i]` is `undefined`; reading `.category` throws
        .fault st1 "TypeError: Cannot read properties of undefined (reading category)"
      | some currentQuestion =>
        match dispatchAnswer env st1 sessionId userMessage filePath
            session.currentQuestionIndex currentQuestion with
        | .error (stF, e) => .fault stF e
        | .ok (st2, aiResponse0, nextQuestionIndex) =>
          if (QUESTION_TEMPLATES.length : Int) ≤ nextQuestionIndex then
            let aiResponse := aiResponse0 ++
              " That completes our interview! Let me calculate your final results."
            match completeInterview env st2 sessionId with
            | .error (stF, e) => .fault stF e
            | .ok st3 =>
              let (st4, updatedSession) := updateInterviewSession st3 sessionId fun s =>
                { s with currentQuestionIndex := nextQuestionIndex, status := .completed }
              let st5 := addChatMessage st4
                { sessionId := sessionId, sender := .ai, content := aiResponse, messageType := .text }
              .ok st5 updatedSession (getSessionMessages st5 sessionId)
          else
            match templateAt nextQuestionIndex with
            | none =>
              -- dead branch: `nextQuestionIndex` is in range here; kept to
              -- mirror the unchecked JS indexing
              .fault st2 "TypeError: Cannot read properties of undefined (reading question)"
            | some nextQuestion =>
              let aiResponse := aiResponse0 ++
                "\n\nLet\x27s move to our next question:\n\n" ++ nextQuestion.question
              let aiResponse :=
                if nextQuestion.category == .practical && nextQuestion.taskType.isSome then
                  aiResponse ++
                    "\n\nI\x27ll provide you with a template file to work with. Please download it, complete the task, and upload your solution."
                else aiResponse
              let (st3, updatedSession) := updateInterviewSession st2 sessionId fun s =>
                { s with currentQuestionIndex := nextQuestionIndex, status := .in_progress }
              let st4 := addChatMessage st3
                { sessionId := sessionId, sender := .ai, content := aiResponse, messageType := .text }
              let st5 :=
                match nextQuestion.taskType with
                | some tt =>
                  if nextQuestion.category == .practical then
                    addChatMessage st4
                      { sessionId := sessionId, sender := .ai,
                        content := "Template file ready for download",
                        messageType := .template_download,
                        metadata := some (.template tt nextQuestion.timeLimit) }
                  else st4
                | none => st4
              .ok st5 updatedSession (getSessionMessages st5 sessionId)

/-- `InterviewService.getSessionWithDetails` (progress record flattened). -/
def getSessionWithDetails (st : StorageState) (sid : String) :
    Option (InterviewSession × List ChatMessage × List InterviewQuestion × Int × Nat × ℤ) :=
  match st.sessions.lookup sid with
  | none => none
  | some session =>
    some (session, getSessionMessages st sid, getSessionQuestions st sid,
          session.currentQuestionIndex + 1, session.totalQuestions,
          jsRound ((((session.currentQuestionIndex + 1 : ℤ) : ℚ) /
            (session.totalQuestions : ℚ)) * 100))

end InterviewService

/-!
## HTTP surface (`registerRoutes`, demo variant, `src/unnamed/part_001`)

Each session-scoped handler is a function from the storage state and request
parameters to a response and the resulting storage state.  Success bodies
(JSON payloads, file downloads) are abstracted to an empty string; error
bodies keep the literal message of the source.  The multer transport filter
(MIME type, 10MB cap) runs before these handlers and is not modelled.
-/

/-- A minimal HTTP response: status code and (error) message body. -/
structure HttpResponse where
  status : Nat
  message : String
deriving DecidableEq, Repr

namespace Routes

open InterviewService

/-- `GET /api/interviews/:sessionId`. -/
def getInterviewHandler (st : StorageState) (sessionId : String) :
    HttpResponse × StorageState :=
  match st.sessions.lookup sessionId with
  | none => (⟨404, "Interview session not found"⟩, st)
  | some _ =>
    match getSessionWithDetails st sessionId with
    | some _ => (⟨200, ""⟩, st)
    | none => (⟨200, ""⟩, st)

/-- `POST /api/interviews/:sessionId/message`. -/
def postMessageHandler (env : Env) (st : StorageState)
    (sessionId message : String) : HttpResponse × StorageState :=
  match st.sessions.lookup sessionId with
  | none => (⟨404, "Interview session not found"⟩, st)
  | some _ =>
    match processUserMessage env st sessionId message none with
    | .ok st' _ _ => (⟨200, ""⟩, st')
    | .fault st' _ => (⟨500, "Failed to process message"⟩, st')

/-- `POST /api/interviews/:sessionId/upload`; `file` is the multer temp path
of the uploaded spreadsheet (`req.file`), `none` when no file part arrived.
The `!req.file` check precedes the session lookup in the source. -/
def uploadHandler (env : Env) (st : StorageState)
    (sessionId message : String) (file : Option String) :
    HttpResponse × StorageState :=
  match file with
  | none => (⟨400, "No file uploaded"⟩, st)
  | some path =>
    match st.sessions.lookup sessionId with
    | none => (⟨404, "Interview session not found"⟩, st)
    | some _ =>
      -- fs.renameSync: the stored temp file gets an .xlsx extension
      let newPath := path ++ ".xlsx"
      match processUserMessage env st sessionId message (some newPath) with
      | .ok st' _ _ => (⟨200, ""⟩, st')
      | .fault st' _ => (⟨500, "Failed to upload file"⟩, st')

/-- `GET /api/interviews/:sessionId/template/:templateType` (the generated
workbook buffer and its on-disk lifecycle are external; only the
success/failure split of `saveTemplate` is kept). -/
def getTemplateHandler (st : StorageState) (sessionId templateType : String) :
    HttpResponse × StorageState :=
  match st.sessions.lookup sessionId with
  | none => (⟨404, "Interview session not found"⟩, st)
  | some _ =>
    match ExcelProcessor.saveTemplate templateType with
    | .ok _ => (⟨200, ""⟩, st)
    | .error _ => (⟨500, "Failed to generate template"⟩, st)

end Routes

/-!
## Shared storage lemmas
-/

@[simp] theorem sessions_addChatMessage (st : StorageState) (m : ChatMessage) :
    (addChatMessage st m).sessions = st.sessions := rfl

@[simp] theorem sessions_addInterviewQuestion (st : StorageState)
    (q : String → InterviewQuestion) :
    (addInterviewQuestion st q).sessions = st.sessions := rfl

@[simp] theorem sessions_addExcelEvaluation (st : StorageState) (e : ExcelEvaluation) :
    (addExcelEvaluation st e).sessions = st.sessions := rfl

@[simp] theorem sessions_bumpEval (st : StorageState) :
    (InterviewService.bumpEval st).sessions = st.sessions := rfl

theorem lookup_updateAssoc_self (l : List (String × InterviewSession))
    (k : String) (v w : InterviewSession) (h : l.lookup k = some w) :
    (updateAssoc l k v).lookup k = some v := by
  induction l with
  | nil => simp at h
  | cons p t ih =>
    simp only [updateAssoc, List.map_cons] at ih ⊢
    by_cases hk : k = p.1
    · rw [if_pos hk]
      simp [List.lookup, beq_iff_eq, hk]
    · rw [if_neg hk]
      have hbeq : (k == p.1) = false := beq_eq_false_iff_ne.mpr hk
      simp only [List.lookup, hbeq] at h ⊢
      exact ih h

theorem lookup_updateAssoc_ne (l : List (String × InterviewSession))
    (k k' : String) (v : InterviewSession) (h : k' ≠ k) :
    (updateAssoc l k v).lookup k' = l.lookup k' := by
  induction l with
  | nil => simp [updateAssoc]
  | cons p t ih =>
    simp only [updateAssoc, List.map_cons] at ih ⊢
    by_cases hk : k = p.1
    · have hbeq : (k' == p.1) = false := beq_eq_false_iff_ne.mpr (hk ▸ h)
      rw [if_pos hk]
      simp only [List.lookup, hbeq]
      exact ih
    · rw [if_neg hk]
      simp only [List.lookup]
      cases k' == p.1
      · exact ih
      · rfl

theorem updateAssoc_updateAssoc (l : List (String × InterviewSession))
    (k : String) (v w : InterviewSession) :
    updateAssoc (updateAssoc l k v) k w = updateAssoc l k w := by
  unfold updateAssoc
  rw [List.map_map]
  congr 1
  funext a
  by_cases ha : k = a.1
  · simp [Function.comp, ha]
  · simp [Function.comp, ha]

/-- Bounds extracted from a successful script lookup. -/
theorem templateAt_some_bounds (i : Int) (tq : InterviewQuestionTemplate)
    (h : InterviewService.templateAt i = some tq) :
    0 ≤ i ∧ i < (InterviewService.QUESTION_TEMPLATES.length : Int) := by
  unfold InterviewService.templateAt at h
  by_cases hi : 0 ≤ i
  · rw [if_pos hi] at h
    refine ⟨hi, ?_⟩
    have hlen : i.toNat < InterviewService.QUESTION_TEMPLATES.length := by
      by_contra hge
      rw [List.get?_eq_none.mpr (Nat.le_of_not_lt hge)] at h
      exact Option.noConfusion h
    omega
  · rw [if_neg hi] at h
    exact Option.noConfusion h

/-!
## C3 — category-average computation
-/

theorem foldl_add_score (l : List InterviewQuestion) (a : ℚ) :
    l.foldl (fun sum q => sum + q.score.getD 0) a =
      a + (l.map fun q => q.score.getD 0).sum := by
  induction l generalizing a with
  | nil => simp
  | cons q t ih => simp [ih, add_assoc]

/-- A conceptual question row scoring 80 (concrete instance for C3). -/
def rowScored80 : InterviewQuestion :=
  { id := "0", sessionId := "s1", questionIndex := 0, category := .conceptual,
    question := "q0", userAnswer := "a0", score := some 80, isCompleted := true }

/-- A conceptual question row scoring 60 (concrete instance for C3). -/
def rowScored60 : InterviewQuestion :=
  { id := "1", sessionId := "s1", questionIndex := 1, category := .conceptual,
    question := "q1", userAnswer := "a1", score := some 60, isCompleted := true }

/-- C3: for every list of Question rows in one category, the category average
is the rounded arithmetic mean of their scores, a row whose score does not
parse as a number counting as 0, and an empty category averaging to 0; in
particular scores [80, 60] average to 70 and an empty list averages to 0. -/
theorem c3_category_average :
    (∀ qs : List InterviewQuestion,
      InterviewService.calculateAverageScore qs =
        if qs = [] then 0
        else jsRound ((qs.map fun q => q.score.getD 0).sum / (qs.length : ℚ))) ∧
    InterviewService.calculateAverageScore [rowScored80, rowScored60] = 70 ∧
    InterviewService.calculateAverageScore [] = 0 := by
  have hgen : ∀ qs : List InterviewQuestion,
      InterviewService.calculateAverageScore qs =
        if qs = [] then 0
        else jsRound ((qs.map fun q => q.score.getD 0).sum / (qs.length : ℚ)) := by
    intro qs
    unfold InterviewService.calculateAverageScore
    rcases qs with _ | ⟨q, t⟩
    · simp
    · rw [if_neg (by simp), if_neg (by simp), foldl_add_score, zero_add]
  refine ⟨hgen, ?_, ?_⟩
  · rw [hgen]
    rw [if_neg (by simp)]
    simp only [List.map_cons, List.map_nil, List.sum_cons, List.sum_nil,
      List.length_cons, List.length_nil, rowScored80, rowScored60, Option.getD_some]
    exact jsRound_eq _ 70 (by norm_num) (by norm_num)
  · rw [hgen]
    simp

/-!
## C7 — the spreadsheet inspector clamps all three sub-scores into [0,100]
-/

/-- C7: for every input workbook (and expected-sheet list and task type), the
returned `formulaAccuracy`, `structureScore` and `bestPracticesScore` all lie
in [0,100], whatever the accumulated intermediate arithmetic was. -/
theorem c7_scores_clamped (wb : Workbook) (expectedSheets : List String)
    (taskType : String) :
    (0 ≤ (ExcelProcessor.evaluateExcelFile wb expectedSheets taskType).formulaAccuracy ∧
      (ExcelProcessor.evaluateExcelFile wb expectedSheets taskType).formulaAccuracy ≤ 100) ∧
    (0 ≤ (ExcelProcessor.evaluateExcelFile wb expectedSheets taskType).structureScore ∧
      (ExcelProcessor.evaluateExcelFile wb expectedSheets taskType).structureScore ≤ 100) ∧
    (0 ≤ (ExcelProcessor.evaluateExcelFile wb expectedSheets taskType).bestPracticesScore ∧
      (ExcelProcessor.evaluateExcelFile wb expectedSheets taskType).bestPracticesScore ≤ 100) :=
  ⟨⟨clampScore_nonneg _, clampScore_le_100 _⟩,
   ⟨clampScore_nonneg _, clampScore_le_100 _⟩,
   ⟨clampScore_nonneg _, clampScore_le_100 _⟩⟩

/-!
## C4 — practical-task weighted overall score
-/

/-- C4: for every practical-task evaluation, the overall practical score is
`round(formulaAccuracy*0.5 + structureScore*0.3 + bestPracticesScore*0.2)` of
the spreadsheet inspector's sub-scores; in particular sub-scores 100/80/60
give 86. -/
theorem c4_practical_weighted_score :
    (∀ (env : InterviewService.Env) (st : StorageState) (sessionId : String)
        (question : InterviewQuestionTemplate) (filePath userExplanation : String)
        (wb : Workbook) (st' : StorageState) (res : InterviewService.PracticalResult),
      env.readWorkbook filePath = .ok wb →
      InterviewService.evaluatePracticalTask env st sessionId question filePath
          userExplanation = .ok (st', res) →
      res.score = jsRound
        ((ExcelProcessor.evaluateExcelFile wb
            (InterviewService.expectedSheetsFor question)
            (question.taskType.getD "")).formulaAccuracy * 0.5 +
         (ExcelProcessor.evaluateExcelFile wb
            (InterviewService.expectedSheetsFor question)
            (question.taskType.getD "")).structureScore * 0.3 +
         (ExcelProcessor.evaluateExcelFile wb
            (InterviewService.expectedSheetsFor question)
            (question.taskType.getD "")).bestPracticesScore * 0.2)) ∧
    jsRound ((100 : ℚ) * 0.5 + 80 * 0.3 + 60 * 0.2) = 86 := by
  constructor
  · intro env st sessionId question filePath userExplanation wb st' res h1 h2
    unfold InterviewService.evaluatePracticalTask at h2
    rw [h1] at h2
    simp only [Except.ok.injEq, Prod.mk.injEq] at h2
    rw [← h2.2]
  · exact jsRound_eq _ 86 (by norm_num) (by norm_num)

/-- An `Env` whose external services all fail (used where no external call is
expected to be consulted). -/
def envStub : InterviewService.Env :=
  { readWorkbook := fun _ => .error "ENOENT",
    evaluateConceptualAnswer := fun _ _ _ => .error "service unavailable",
    evaluateExplanation := fun _ _ => .error "service unavailable",
    generateFinalReport := fun _ _ _ _ _ _ => .error "service unavailable" }

/-- A one-sheet solution workbook for the data-cleanup task. -/
def wbClean : Workbook :=
  ⟨[("Clean_Data", ⟨[[⟨some "=XLOOKUP(A1,Data,2)"⟩]], 1⟩)]⟩

def envWithWorkbook : InterviewService.Env :=
  { envStub with readWorkbook := fun _ => .ok wbClean }

/-- The data-cleanup practical script entry (concrete instance for C4). -/
def practicalTemplate : InterviewQuestionTemplate :=
  { category := .practical,
    question := "Complete the data cleanup task. Clean and standardize the messy customer data provided.",
    taskType := some "data_cleanup", timeLimit := some 8 }

theorem c4_witness :
    ∃ (st' : StorageState) (res : InterviewService.PracticalResult),
      InterviewService.evaluatePracticalTask envWithWorkbook emptyStorage "s1"
          practicalTemplate "f.xlsx" "done" = .ok (st', res) ∧
      res.score = jsRound
        ((ExcelProcessor.evaluateExcelFile wbClean
            (InterviewService.expectedSheetsFor practicalTemplate)
            (practicalTemplate.taskType.getD "")).formulaAccuracy * 0.5 +
         (ExcelProcessor.evaluateExcelFile wbClean
            (InterviewService.expectedSheetsFor practicalTemplate)
            (practicalTemplate.taskType.getD "")).structureScore * 0.3 +
         (ExcelProcessor.evaluateExcelFile wbClean
            (InterviewService.expectedSheetsFor practicalTemplate)
            (practicalTemplate.taskType.getD "")).bestPracticesScore * 0.2) :=
  ⟨_, _, rfl,
    c4_practical_weighted_score.1 envWithWorkbook emptyStorage "s1"
      practicalTemplate "f.xlsx" "done" wbClean _ _ rfl rfl⟩

/-!
## C6 — sales-analysis formula bonuses
-/

/-- The collected formula strings of a whole workbook, in the accumulation
order of `details.formulasFound`. -/
def collectedFormulas (wb : Workbook) : List String :=
  wb.sheets.flatMap fun sw => ExcelProcessor.extractFormulas sw.2

/-- The spec's lookup-bonus clause: +15 once when the collected formulas
contain `XLOOKUP`, or both `INDEX` and `MATCH` (case-insensitive). -/
def lookupBonusOnce (formulas : List String) : ℚ :=
  if ExcelProcessor.anyFormulaHas formulas "XLOOKUP" ||
      (ExcelProcessor.anyFormulaHas formulas "INDEX" &&
        ExcelProcessor.anyFormulaHas formulas "MATCH") then 15 else 0

/-- The spec's SUMIFS-bonus clause: +15 once when the collected formulas
contain `SUMIFS` (case-insensitive). -/
def sumifsBonusOnce (formulas : List String) : ℚ :=
  if ExcelProcessor.anyFormulaHas formulas "SUMIFS" then 15 else 0

theorem lookupBonusOnce_nonneg (fs : List String) : 0 ≤ lookupBonusOnce fs := by
  unfold lookupBonusOnce
  split <;> norm_num

theorem sumifsBonusOnce_nonneg (fs : List String) : 0 ≤ sumifsBonusOnce fs := by
  unfold sumifsBonusOnce
  split <;> norm_num

theorem evaluateSalesAnalysis_formulaScore (ws : Worksheet) (es : List String) :
    (ExcelProcessor.evaluateSalesAnalysis ws es).formulaScore =
      60 + lookupBonusOnce (ExcelProcessor.extractFormulas ws) +
        sumifsBonusOnce (ExcelProcessor.extractFormulas ws) := rfl

theorem evaluateSalesAnalysis_formulaScore_ge_60 (ws : Worksheet)
    (es : List String) :
    (60 : ℚ) ≤ (ExcelProcessor.evaluateSalesAnalysis ws es).formulaScore := by
  rw [evaluateSalesAnalysis_formulaScore]
  have h1 := lookupBonusOnce_nonneg (ExcelProcessor.extractFormulas ws)
  have h2 := sumifsBonusOnce_nonneg (ExcelProcessor.extractFormulas ws)
  linarith

theorem foldl_sheetStep_formulaAccuracy (es : List String)
    (l : List (String × Worksheet)) (acc : ExcelProcessor.ExcelAccum) :
    (l.foldl (ExcelProcessor.sheetStep es "sales_analysis") acc).formulaAccuracy =
      acc.formulaAccuracy +
        (l.map fun sw =>
          (ExcelProcessor.evaluateSalesAnalysis sw.2 es).formulaScore).sum := by
  induction l generalizing acc with
  | nil => simp
  | cons sw t ih =>
    rw [List.foldl_cons, ih]
    simp [ExcelProcessor.sheetStep, add_assoc]

theorem foldl_sheetStep_formulasFound (es : List String) (tt : String)
    (l : List (String × Worksheet)) (acc : ExcelProcessor.ExcelAccum) :
    (l.foldl (ExcelProcessor.sheetStep es tt) acc).formulasFound =
      acc.formulasFound ++ (l.flatMap fun sw => ExcelProcessor.extractFormulas sw.2) := by
  induction l generalizing acc with
  | nil => simp
  | cons sw t ih =>
    rw [List.foldl_cons, ih]
    cases h : (tt == "sales_analysis") with
    | true => simp [ExcelProcessor.sheetStep, h]
    | false => simp [ExcelProcessor.sheetStep, h]

theorem evaluateExcelFile_formulaAccuracy (wb : Workbook) (es : List String) :
    (ExcelProcessor.evaluateExcelFile wb es "sales_analysis").formulaAccuracy =
      clampScore ((wb.sheets.map fun sw =>
        (ExcelProcessor.evaluateSalesAnalysis sw.2 es).formulaScore).sum) := by
  unfold ExcelProcessor.evaluateExcelFile
  dsimp only
  rw [foldl_sheetStep_formulaAccuracy]
  dsimp only
  rw [zero_add]

theorem evaluateExcelFile_formulasFound (wb : Workbook) (es : List String)
    (tt : String) :
    (ExcelProcessor.evaluateExcelFile wb es tt).details.formulasFound =
      collectedFormulas wb := by
  unfold ExcelProcessor.evaluateExcelFile
  dsimp only
  rw [foldl_sheetStep_formulasFound]
  dsimp only
  rw [List.nil_append]
  rfl

/-- C6: on a sales-analysis evaluation, the returned formula-accuracy score is
the clamped sum of the per-sheet base of 60 and the two +15 bonuses, each
awarded once as a function of the workbook's collected formula strings
(XLOOKUP or INDEX+MATCH, and SUMIFS, case-insensitively); the collected
formulas are exactly `details.formulasFound`. -/
theorem c6_sales_bonus (wb : Workbook) (expectedSheets : List String) :
    (ExcelProcessor.evaluateExcelFile wb expectedSheets "sales_analysis").formulaAccuracy =
      clampScore ((60 : ℚ) * wb.sheets.length +
        lookupBonusOnce (collectedFormulas wb) +
        sumifsBonusOnce (collectedFormulas wb)) ∧
    (ExcelProcessor.evaluateExcelFile wb expectedSheets
        "sales_analysis").details.formulasFound = collectedFormulas wb := by
  constructor
  · rw [evaluateExcelFile_formulaAccuracy]
    rcases wb with ⟨sheets⟩
    rcases sheets with _ | ⟨a, _ | ⟨b, t⟩⟩
    · simp [collectedFormulas, lookupBonusOnce, sumifsBonusOnce,
        ExcelProcessor.anyFormulaHas]
    · simp only [List.map_cons, List.map_nil, List.sum_cons, List.sum_nil,
        collectedFormulas, List.flatMap_cons, List.flatMap_nil, List.append_nil,
        evaluateSalesAnalysis_formulaScore, List.length_cons, List.length_nil]
      norm_num [add_assoc]
    · have h60a := evaluateSalesAnalysis_formulaScore_ge_60 a.2 expectedSheets
      have h60b := evaluateSalesAnalysis_formulaScore_ge_60 b.2 expectedSheets
      have hsum : (0 : ℚ) ≤ (t.map fun sw =>
          (ExcelProcessor.evaluateSalesAnalysis sw.2 expectedSheets).formulaScore).sum := by
        apply List.sum_nonneg
        intro x hx
        obtain ⟨sw, _, rfl⟩ := List.mem_map.mp hx
        exact le_trans (by norm_num) (evaluateSalesAnalysis_formulaScore_ge_60 sw.2 expectedSheets)
      have hlb := lookupBonusOnce_nonneg (collectedFormulas ⟨a :: b :: t⟩)
      have hsb := sumifsBonusOnce_nonneg (collectedFormulas ⟨a :: b :: t⟩)
      have hlen : (0 : ℚ) ≤ ((t.length : ℚ)) := by positivity
      rw [clampScore_of_ge_100, clampScore_of_ge_100]
      · simp only [List.length_cons]
        push_cast
        linarith
      · simp only [List.map_cons, List.sum_cons]
        linarith
  · exact evaluateExcelFile_formulasFound wb expectedSheets "sales_analysis"

/-!
## C8 — missing-session handling of the session-scoped endpoints
-/

/-- C8 counterexample: the upload endpoint checks `!req.file` before the
session lookup, so a request with an unknown session id and no file part is
answered 400, not 404. -/
theorem c8_counterexample :
    emptyStorage.sessions.lookup "no-such-session" = none ∧
    (Routes.uploadHandler envStub emptyStorage "no-such-session" "" none).1.status = 400 ∧
    (Routes.uploadHandler envStub emptyStorage "no-such-session" "" none).1.status ≠ 404 :=
  ⟨rfl, rfl, by decide⟩

/-- C8 (amended): every session-scoped endpoint answers a request with an
unknown session id with 404 and leaves the storage state untouched — except
an upload request with no attached file, which the handler rejects with 400
before the session lookup (also with no state change). -/
theorem c8_missing_session_404 (env : InterviewService.Env) (st : StorageState)
    (sessionId message templateType filePath : String)
    (h : st.sessions.lookup sessionId = none) :
    Routes.getInterviewHandler st sessionId =
      (⟨404, "Interview session not found"⟩, st) ∧
    Routes.postMessageHandler env st sessionId message =
      (⟨404, "Interview session not found"⟩, st) ∧
    Routes.uploadHandler env st sessionId message (some filePath) =
      (⟨404, "Interview session not found"⟩, st) ∧
    Routes.getTemplateHandler st sessionId templateType =
      (⟨404, "Interview session not found"⟩, st) ∧
    Routes.uploadHandler env st sessionId message none =
      (⟨400, "No file uploaded"⟩, st) := by
  refine ⟨?_, ?_, ?_, ?_, rfl⟩
  · unfold Routes.getInterviewHandler
    rw [h]
  · unfold Routes.postMessageHandler
    rw [h]
  · unfold Routes.uploadHandler
    rw [h]
  · unfold Routes.getTemplateHandler
    rw [h]

theorem c8_missing_session_404_witness :
    Routes.getInterviewHandler emptyStorage "no-such-session" =
      (⟨404, "Interview session not found"⟩, emptyStorage) ∧
    Routes.postMessageHandler envStub emptyStorage "no-such-session" "hi" =
      (⟨404, "Interview session not found"⟩, emptyStorage) ∧
    Routes.uploadHandler envStub emptyStorage "no-such-session" "hi" (some "tmp123") =
      (⟨404, "Interview session not found"⟩, emptyStorage) ∧
    Routes.getTemplateHandler emptyStorage "no-such-session" "sales_analysis" =
      (⟨404, "Interview session not found"⟩, emptyStorage) ∧
    Routes.uploadHandler envStub emptyStorage "no-such-session" "hi" none =
      (⟨400, "No file uploaded"⟩, emptyStorage) :=
  c8_missing_session_404 envStub emptyStorage "no-such-session" "hi"
    "sales_analysis" "tmp123" rfl

/-!
## C10 — a turn on an already-completed session faults after the user
message is persisted
-/

/-- C10: when `currentQuestionIndex` equals `totalQuestions` (an
already-completed session, the script length being 8), `processUserMessage`
first appends the user chat message and then throws on the out-of-range
script lookup (`QUESTION_TEMPLATES[8]` is `undefined`, reading `.category`
faults); the appended user message is not rolled back, and nothing else in
storage changes. -/
theorem c10_completed_session_faults (env : InterviewService.Env)
    (st : StorageState) (sid msg : String) (fp : Option String)
    (s : InterviewSession) (h1 : st.sessions.lookup sid = some s)
    (h2 : s.currentQuestionIndex = (s.totalQuestions : Int))
    (h3 : s.totalQuestions = InterviewService.QUESTION_TEMPLATES.length) :
    InterviewService.processUserMessage env st sid msg fp =
      .fault (addChatMessage st (InterviewService.userChatMessage sid msg fp))
        "TypeError: Cannot read properties of undefined (reading category)" ∧
    InterviewService.turnState (InterviewService.processUserMessage env st sid msg fp) =
      { st with messages :=
          st.messages ++ [InterviewService.userChatMessage sid msg fp] } := by
  have hidx : s.currentQuestionIndex = 8 := by
    rw [h2, h3]
    rfl
  have hmain : InterviewService.processUserMessage env st sid msg fp =
      .fault (addChatMessage st (InterviewService.userChatMessage sid msg fp))
        "TypeError: Cannot read properties of undefined (reading category)" := by
    unfold InterviewService.processUserMessage
    rw [h1]
    dsimp only
    rw [if_neg (by rw [hidx]; decide), hidx]
    rfl
  exact ⟨hmain, by rw [hmain]; rfl⟩

/-- A session that has already walked the whole script. -/
def completedSession : InterviewSession :=
  { id := "s1", userId := "demo-user", status := .completed,
    currentQuestionIndex := 8, totalQuestions := 8 }

def stCompleted : StorageState :=
  { emptyStorage with sessions := [("s1", completedSession)] }

theorem c10_completed_session_faults_witness :
    InterviewService.processUserMessage envStub stCompleted "s1" "hello" none =
      .fault (addChatMessage stCompleted (InterviewService.userChatMessage "s1" "hello" none))
        "TypeError: Cannot read properties of undefined (reading category)" ∧
    InterviewService.turnState
        (InterviewService.processUserMessage envStub stCompleted "s1" "hello" none) =
      { stCompleted with messages :=
          stCompleted.messages ++ [InterviewService.userChatMessage "s1" "hello" none] } :=
  c10_completed_session_faults envStub stCompleted "s1" "hello" none
    completedSession rfl rfl rfl

/-!
## C5 — the first turn on a fresh session
-/

theorem updateInterviewSession_eq_of_lookup (st : StorageState) (sid : String)
    (f : InterviewSession → InterviewSession) (s : InterviewSession)
    (h : st.sessions.lookup sid = some s) :
    updateInterviewSession st sid f =
      ({ st with sessions := updateAssoc st.sessions sid (f s) }, some (f s)) := by
  unfold updateInterviewSession
  rw [h]

/-- C5: on a session whose `currentQuestionIndex` is −1, a turn moves the
index to 0, appends (after the user message) one AI chat message carrying
question 0's text, and runs no scoring path: no external evaluation call, no
Question row, no Excel evaluation row. -/
theorem c5_first_turn (env : InterviewService.Env) (st : StorageState)
    (sid msg : String) (fp : Option String) (s : InterviewSession)
    (h1 : st.sessions.lookup sid = some s)
    (h2 : s.currentQuestionIndex = -1) :
    ∃ st1 : StorageState,
      InterviewService.processUserMessage env st sid msg fp =
        .ok st1 (some { s with currentQuestionIndex := 0 })
          (getSessionMessages st1 sid) ∧
      st1.sessions = updateAssoc st.sessions sid { s with currentQuestionIndex := 0 } ∧
      st1.questions = st.questions ∧
      st1.excelEvals = st.excelEvals ∧
      st1.evalCalls = st.evalCalls ∧
      st1.messages = st.messages ++
        [InterviewService.userChatMessage sid msg fp,
         { sessionId := sid, sender := .ai,
           content := "Great! Let\x27s begin with our first question:\n\n" ++
             (InterviewService.QUESTION_TEMPLATES.headD
               { category := .conceptual, question := "" }).question,
           messageType := .text, metadata := none }] := by
  unfold InterviewService.processUserMessage
  rw [h1]
  dsimp only
  rw [if_pos h2]
  rw [updateInterviewSession_eq_of_lookup _ _ _ s (by rw [sessions_addChatMessage, h1])]
  dsimp only
  refine ⟨_, rfl, rfl, rfl, rfl, rfl, ?_⟩
  simp [addChatMessage]

/-- The state and session produced by starting a fresh interview. -/
def startedState : StorageState :=
  (InterviewService.startInterview emptyStorage "demo-user" "s1").1

def startedSession : InterviewSession :=
  (InterviewService.startInterview emptyStorage "demo-user" "s1").2

theorem c5_first_turn_witness :
    ∃ st1 : StorageState,
      InterviewService.processUserMessage envStub startedState "s1" "ready" none =
        .ok st1 (some { startedSession with currentQuestionIndex := 0 })
          (getSessionMessages st1 "s1") ∧
      st1.sessions = updateAssoc startedState.sessions "s1"
        { startedSession with currentQuestionIndex := 0 } ∧
      st1.questions = startedState.questions ∧
      st1.excelEvals = startedState.excelEvals ∧
      st1.evalCalls = startedState.evalCalls ∧
      st1.messages = startedState.messages ++
        [InterviewService.userChatMessage "s1" "ready" none,
         { sessionId := "s1", sender := .ai,
           content := "Great! Let\x27s begin with our first question:\n\n" ++
             (InterviewService.QUESTION_TEMPLATES.headD
               { category := .conceptual, question := "" }).question,
           messageType := .text, metadata := none }] :=
  c5_first_turn envStub startedState "s1" "ready" none startedSession rfl rfl

/-!
## C9 — a practical question answered without a file
-/

/-- In the fixed script, every practical entry carries a task type. -/
theorem templateAt_practical_taskType (i : Int) (tq : InterviewQuestionTemplate)
    (h : InterviewService.templateAt i = some tq) (hc : tq.category = .practical) :
    ∃ tt, tq.taskType = some tt := by
  have hmem : tq ∈ InterviewService.QUESTION_TEMPLATES := by
    unfold InterviewService.templateAt at h
    by_cases hi : 0 ≤ i
    · rw [if_pos hi] at h
      exact List.get?_mem h
    · rw [if_neg hi] at h
      exact absurd h (Option.noConfusion)
  have hall : ∀ q ∈ InterviewService.QUESTION_TEMPLATES,
      q.category = .practical → q.taskType.isSome := by decide
  obtain ⟨tt, htt⟩ := Option.isSome_iff_exists.mp (hall tq hmem hc)
  exact ⟨tt, htt⟩

theorem dispatchAnswer_practical_nofile (env : InterviewService.Env)
    (st1 : StorageState) (sid msg : String) (idx : Int)
    (tq : InterviewQuestionTemplate) (h : tq.category = .practical) :
    InterviewService.dispatchAnswer env st1 sid msg none idx tq =
      .ok (st1, "", idx) := by
  unfold InterviewService.dispatchAnswer
  rw [h]

/-- C9: on a session whose current script entry is practical, a turn with no
file path runs no scoring branch — no external evaluation call, no Question
row, no Excel-evaluation row, index unchanged — and the appended AI reply
restates the same practical question, followed by a `template_download`
message for the same task. -/
theorem c9_practical_reprompt (env : InterviewService.Env) (st : StorageState)
    (sid msg : String) (s : InterviewSession) (tq : InterviewQuestionTemplate)
    (h1 : st.sessions.lookup sid = some s)
    (h2 : InterviewService.templateAt s.currentQuestionIndex = some tq)
    (h3 : tq.category = .practical) :
    ∃ (st1 : StorageState) (s1 : InterviewSession) (tt : String)
      (aiMsg tmplMsg : ChatMessage),
      tq.taskType = some tt ∧
      InterviewService.processUserMessage env st sid msg none =
        .ok st1 (some s1) (getSessionMessages st1 sid) ∧
      s1.currentQuestionIndex = s.currentQuestionIndex ∧
      st1.questions = st.questions ∧
      st1.excelEvals = st.excelEvals ∧
      st1.evalCalls = st.evalCalls ∧
      st1.messages = st.messages ++
        [InterviewService.userChatMessage sid msg none, aiMsg, tmplMsg] ∧
      (∃ pre post : String, aiMsg.content = pre ++ tq.question ++ post) ∧
      aiMsg.messageType = .text ∧
      tmplMsg.messageType = .template_download ∧
      tmplMsg.metadata = some (.template tt tq.timeLimit) := by
  obtain ⟨hge, hlt⟩ := templateAt_some_bounds _ _ h2
  obtain ⟨tt, htt⟩ := templateAt_practical_taskType _ _ h2 h3
  have hlen : (InterviewService.QUESTION_TEMPLATES.length : Int) = 8 := by decide
  unfold InterviewService.processUserMessage
  rw [h1]
  dsimp only
  rw [if_neg (by omega), h2]
  dsimp only
  rw [dispatchAnswer_practical_nofile _ _ _ _ _ _ h3]
  dsimp only
  rw [if_neg (by omega), h2]
  dsimp only
  rw [updateInterviewSession_eq_of_lookup _ _ _ s (by rw [sessions_addChatMessage, h1])]
  dsimp only
  rw [h3, htt]
  simp only [beq_self_eq_true, Option.isSome_some, Bool.and_self, if_true]
  refine ⟨_, _, tt,
    { sessionId := sid, sender := .ai,
      content := "" ++ "\n\nLet\x27s move to our next question:\n\n" ++ tq.question ++
        "\n\nI\x27ll provide you with a template file to work with. Please download it, complete the task, and upload your solution.",
      messageType := .text, metadata := none },
    { sessionId := sid, sender := .ai,
      content := "Template file ready for download",
      messageType := .template_download,
      metadata := some (.template tt tq.timeLimit) },
    rfl, rfl, rfl, rfl, rfl, rfl, ?_,
    ⟨"" ++ "\n\nLet\x27s move to our next question:\n\n",
     "\n\nI\x27ll provide you with a template file to work with. Please download it, complete the task, and upload your solution.",
     rfl⟩, rfl, rfl, rfl⟩
  simp [addChatMessage]

/-- A session sitting at the data-cleanup practical question (index 2). -/
def practicalSession : InterviewSession :=
  { id := "s1", userId := "demo-user", status := .in_progress,
    currentQuestionIndex := 2, totalQuestions := 8 }

def stPractical : StorageState :=
  { emptyStorage with sessions := [("s1", practicalSession)] }

theorem c9_practical_reprompt_witness :
    ∃ (st1 : StorageState) (s1 : InterviewSession) (tt : String)
      (aiMsg tmplMsg : ChatMessage),
      practicalTemplate.taskType = some tt ∧
      InterviewService.processUserMessage envStub stPractical "s1" "no file yet" none =
        .ok st1 (some s1) (getSessionMessages st1 "s1") ∧
      s1.currentQuestionIndex = practicalSession.currentQuestionIndex ∧
      st1.questions = stPractical.questions ∧
      st1.excelEvals = stPractical.excelEvals ∧
      st1.evalCalls = stPractical.evalCalls ∧
      st1.messages = stPractical.messages ++
        [InterviewService.userChatMessage "s1" "no file yet" none, aiMsg, tmplMsg] ∧
      (∃ pre post : String, aiMsg.content = pre ++ practicalTemplate.question ++ post) ∧
      aiMsg.messageType = .text ∧
      tmplMsg.messageType = .template_download ∧
      tmplMsg.metadata = some (.template tt practicalTemplate.timeLimit) :=
  c9_practical_reprompt envStub stPractical "s1" "no file yet"
    practicalSession practicalTemplate rfl rfl rfl

/-!
## C1 — completion routine's weighted overall score
-/

/-- C1: when the final-report call succeeds, the completion routine stores on
the session `overallScore = round(p*0.5 + c*0.25 + e*0.15 + b*0.1)` where
p, c, e, b are the four category averages of the session's Question rows, and
the four category scores themselves; the session is marked completed. -/
theorem c1_completion_weighted_score (env : InterviewService.Env)
    (st : StorageState) (sid : String) (s : InterviewSession)
    (r : InterviewService.FinalReport)
    (h1 : st.sessions.lookup sid = some s)
    (h2 : ∀ o p c e b qs, env.generateFinalReport o p c e b qs = .ok r) :
    ∃ (st' : StorageState) (s' : InterviewSession),
      InterviewService.completeInterview env st sid = .ok st' ∧
      st'.sessions.lookup sid = some s' ∧
      s'.overallScore = some ((jsRound (
        (InterviewService.calculateAverageScore
          ((getSessionQuestions st sid).filter fun q => q.category == .practical) : ℚ) * 0.5 +
        (InterviewService.calculateAverageScore
          ((getSessionQuestions st sid).filter fun q => q.category == .conceptual) : ℚ) * 0.25 +
        (InterviewService.calculateAverageScore
          ((getSessionQuestions st sid).filter fun q => q.category == .explanation) : ℚ) * 0.15 +
        (InterviewService.calculateAverageScore
          ((getSessionQuestions st sid).filter fun q => q.category == .behavioral) : ℚ) * 0.1) : ℤ) : ℚ) ∧
      s'.practicalScore = some ((InterviewService.calculateAverageScore
        ((getSessionQuestions st sid).filter fun q => q.category == .practical) : ℤ) : ℚ) ∧
      s'.conceptualScore = some ((InterviewService.calculateAverageScore
        ((getSessionQuestions st sid).filter fun q => q.category == .conceptual) : ℤ) : ℚ) ∧
      s'.explanationScore = some ((InterviewService.calculateAverageScore
        ((getSessionQuestions st sid).filter fun q => q.category == .explanation) : ℤ) : ℚ) ∧
      s'.behavioralScore = some ((InterviewService.calculateAverageScore
        ((getSessionQuestions st sid).filter fun q => q.category == .behavioral) : ℤ) : ℚ) ∧
      s'.status = .completed := by
  unfold InterviewService.completeInterview
  dsimp only
  rw [h2]
  dsimp only
  rw [updateInterviewSession_eq_of_lookup _ _ _ s (by rw [sessions_bumpEval]; exact h1)]
  dsimp only
  simp only [sessions_bumpEval]
  exact ⟨_, _, rfl, lookup_updateAssoc_self _ _ _ _ h1, rfl, rfl, rfl, rfl, rfl, rfl⟩

theorem calculateAverageScore_singleton (q : InterviewQuestion) (x : ℚ)
    (hx : q.score = some x) :
    InterviewService.calculateAverageScore [q] = jsRound x := by
  unfold InterviewService.calculateAverageScore
  rw [if_neg (by simp)]
  simp [hx]

/-- The four scored rows of the C1 witness session. -/
def rowP90 : InterviewQuestion :=
  { id := "0", sessionId := "s1", questionIndex := 2, category := .practical,
    question := "p", userAnswer := "a", score := some 90, isCompleted := true }

def rowC70 : InterviewQuestion :=
  { id := "1", sessionId := "s1", questionIndex := 0, category := .conceptual,
    question := "c", userAnswer := "a", score := some 70, isCompleted := true }

def rowE50 : InterviewQuestion :=
  { id := "2", sessionId := "s1", questionIndex := 4, category := .explanation,
    question := "e", userAnswer := "a", score := some 50, isCompleted := true }

def rowB80 : InterviewQuestion :=
  { id := "3", sessionId := "s1", questionIndex := 6, category := .behavioral,
    question := "b", userAnswer := "a", score := some 80, isCompleted := true }

def sessionAtEnd : InterviewSession :=
  { id := "s1", userId := "demo-user", status := .in_progress,
    currentQuestionIndex := 7, totalQuestions := 8 }

def stScored : StorageState :=
  { sessions := [("s1", sessionAtEnd)], messages := [],
    questions := [rowP90, rowC70, rowE50, rowB80],
    excelEvals := [], evalCalls := 0 }

def envReportOk : InterviewService.Env :=
  { envStub with generateFinalReport := fun _ _ _ _ _ _ => .ok ⟨[], [], []⟩ }

theorem c1_completion_weighted_score_witness :
    ∃ (st' : StorageState) (s' : InterviewSession),
      InterviewService.completeInterview envReportOk stScored "s1" = .ok st' ∧
      st'.sessions.lookup "s1" = some s' ∧
      s'.overallScore = some 78 ∧
      s'.practicalScore = some 90 ∧
      s'.conceptualScore = some 70 ∧
      s'.explanationScore = some 50 ∧
      s'.behavioralScore = some 80 ∧
      s'.status = .completed := by
  obtain ⟨st', s', hok, hlk, hov, hp, hc, he, hb, hst⟩ :=
    c1_completion_weighted_score envReportOk stScored "s1" sessionAtEnd
      ⟨[], [], []⟩ rfl (fun _ _ _ _ _ _ => rfl)
  have hfilP : (getSessionQuestions stScored "s1").filter
      (fun q => q.category == .practical) = [rowP90] := rfl
  have hfilC : (getSessionQuestions stScored "s1").filter
      (fun q => q.category == .conceptual) = [rowC70] := rfl
  have hfilE : (getSessionQuestions stScored "s1").filter
      (fun q => q.category == .explanation) = [rowE50] := rfl
  have hfilB : (getSessionQuestions stScored "s1").filter
      (fun q => q.category == .behavioral) = [rowB80] := rfl
  have havgP : InterviewService.calculateAverageScore [rowP90] = 90 := by
    rw [calculateAverageScore_singleton rowP90 90 rfl]
    exact jsRound_eq _ 90 (by norm_num) (by norm_num)
  have havgC : InterviewService.calculateAverageScore [rowC70] = 70 := by
    rw [calculateAverageScore_singleton rowC70 70 rfl]
    exact jsRound_eq _ 70 (by norm_num) (by norm_num)
  have havgE : InterviewService.calculateAverageScore [rowE50] = 50 := by
    rw [calculateAverageScore_singleton rowE50 50 rfl]
    exact jsRound_eq _ 50 (by norm_num) (by norm_num)
  have havgB : InterviewService.calculateAverageScore [rowB80] = 80 := by
    rw [calculateAverageScore_singleton rowB80 80 rfl]
    exact jsRound_eq _ 80 (by norm_num) (by norm_num)
  rw [hfilP, havgP] at hov hp
  rw [hfilC, havgC] at hov hc
  rw [hfilE, havgE] at hov he
  rw [hfilB, havgB] at hov hb
  have hjs : jsRound (((90 : ℤ) : ℚ) * 0.5 + ((70 : ℤ) : ℚ) * 0.25 +
      ((50 : ℤ) : ℚ) * 0.15 + ((80 : ℤ) : ℚ) * 0.1) = 78 :=
    jsRound_eq _ 78 (by push_cast; norm_num) (by push_cast; norm_num)
  rw [hjs] at hov
  refine ⟨st', s', hok, hlk, ?_, ?_, ?_, ?_, ?_, hst⟩
  · rw [hov]
    norm_num
  · rw [hp]
    norm_num
  · rw [hc]
    norm_num
  · rw [he]
    norm_num
  · rw [hb]
    norm_num

/-!
## C2 — index monotonicity and status transitions
-/

theorem evaluatePracticalTask_sessions (env : InterviewService.Env)
    (st : StorageState) (sid : String) (qt : InterviewQuestionTemplate)
    (fp ue : String) :
    (match InterviewService.evaluatePracticalTask env st sid qt fp ue with
     | .error (stF, _) => stF.sessions
     | .ok (st2, _) => st2.sessions) = st.sessions := by
  unfold InterviewService.evaluatePracticalTask
  dsimp only
  cases env.readWorkbook fp <;> rfl

/-- Per-turn shape of the category dispatch: the sessions table is untouched
and the next index is the current one or its successor. -/
theorem dispatchAnswer_shape (env : InterviewService.Env) (st1 : StorageState)
    (sid msg : String) (fp : Option String) (idx : Int)
    (tq : InterviewQuestionTemplate) :
    (match InterviewService.dispatchAnswer env st1 sid msg fp idx tq with
     | .error (stF, _) => stF.sessions = st1.sessions
     | .ok (st2, _, n) => st2.sessions = st1.sessions ∧ (n = idx ∨ n = idx + 1)) := by
  rcases fp with _ | fp <;> rcases htq : tq.category <;>
    unfold InterviewService.dispatchAnswer <;> rw [htq]
  · -- none, conceptual
    cases env.evaluateConceptualAnswer tq.question msg tq.expectedAnswer <;>
      first
      | exact rfl
      | exact ⟨rfl, Or.inr rfl⟩
  · -- none, practical
    exact ⟨rfl, Or.inl rfl⟩
  · -- none, explanation
    cases env.evaluateExplanation "Sales analysis task explanation" msg <;>
      first
      | exact rfl
      | exact ⟨rfl, Or.inr rfl⟩
  · -- none, behavioral
    exact ⟨rfl, Or.inr rfl⟩
  · -- some fp, conceptual
    cases env.evaluateConceptualAnswer tq.question msg tq.expectedAnswer <;>
      first
      | exact rfl
      | exact ⟨rfl, Or.inr rfl⟩
  · -- some fp, practical
    dsimp only
    have hps := evaluatePracticalTask_sessions env st1 sid tq fp msg
    rcases hda : InterviewService.evaluatePracticalTask env st1 sid tq fp msg with
      ⟨stF, e⟩ | ⟨st2, evr⟩
    · rw [hda] at hps
      exact hps
    · rw [hda] at hps
      exact ⟨hps, Or.inr rfl⟩
  · -- some fp, explanation
    cases env.evaluateExplanation "Sales analysis task explanation" msg <;>
      first
      | exact rfl
      | exact ⟨rfl, Or.inr rfl⟩
  · -- some fp, behavioral
    exact ⟨rfl, Or.inr rfl⟩

/-- Shape of the completion routine: on failure the sessions table is
untouched; on success exactly the addressed session row is replaced, with
index and total unchanged and status `completed`. -/
theorem completeInterview_shape (env : InterviewService.Env) (st : StorageState)
    (sid : String) (s : InterviewSession)
    (h : st.sessions.lookup sid = some s) :
    (match InterviewService.completeInterview env st sid with
     | .error (stF, _) => stF.sessions = st.sessions
     | .ok st3 => ∃ v, st3.sessions = updateAssoc st.sessions sid v ∧
         v.currentQuestionIndex = s.currentQuestionIndex ∧
         v.totalQuestions = s.totalQuestions ∧ v.status = .completed) := by
  unfold InterviewService.completeInterview
  dsimp only
  split
  · next stF e heq =>
      split at heq
      · injection heq with h2
        injection h2 with h2a h2b
        rw [← h2a]
        rfl
      · rw [updateInterviewSession_eq_of_lookup (InterviewService.bumpEval st)
            sid _ s (by exact h)] at heq
        dsimp only at heq
        cases heq
  · next st3 heq =>
      split at heq
      · cases heq
      · rw [updateInterviewSession_eq_of_lookup (InterviewService.bumpEval st)
            sid _ s (by exact h)] at heq
        dsimp only at heq
        injection heq with h3
        rw [← h3]
        exact ⟨_, rfl, rfl, rfl, rfl⟩

/-- Sessions are untouched by the trailing template-download message step. -/
theorem sessions_optTemplateMsg (o : Option String) (st4 : StorageState)
    (f : String → ChatMessage) (c : Bool) :
    (match o with
     | some tt => if c then addChatMessage st4 (f tt) else st4
     | none => st4).sessions = st4.sessions := by
  cases o with
  | none => rfl
  | some tt =>
    dsimp only
    split <;> rfl

/-- Shape of one `processUserMessage` turn on the sessions table: either it
is untouched (missing session and all fault paths), or exactly the addressed
row is replaced, the new row keeping `totalQuestions` and carrying the index
and status the controller writes in the respective branch. -/
theorem turn_sessions_master (env : InterviewService.Env) (st : StorageState)
    (sid msg : String) (fp : Option String) :
    (InterviewService.turnState
      (InterviewService.processUserMessage env st sid msg fp)).sessions =
        st.sessions ∨
    ∃ s, st.sessions.lookup sid = some s ∧
      ∃ v, (InterviewService.turnState
          (InterviewService.processUserMessage env st sid msg fp)).sessions =
            updateAssoc st.sessions sid v ∧
        v.totalQuestions = s.totalQuestions ∧
        ((s.currentQuestionIndex = -1 ∧ v.currentQuestionIndex = 0 ∧
            v.status = s.status) ∨
         (∃ n, InterviewService.templateAt s.currentQuestionIndex ≠ none ∧
            (n = s.currentQuestionIndex ∨ n = s.currentQuestionIndex + 1) ∧
            v.currentQuestionIndex = n ∧
            ((n < (InterviewService.QUESTION_TEMPLATES.length : Int) ∧
                v.status = .in_progress) ∨
             ((InterviewService.QUESTION_TEMPLATES.length : Int) ≤ n ∧
                v.status = .completed)))) := by
  unfold InterviewService.processUserMessage
  cases hs : st.sessions.lookup sid with
  | none => exact Or.inl rfl
  | some s =>
    dsimp only
    by_cases hidx : s.currentQuestionIndex = -1
    · rw [if_pos hidx]
      rw [updateInterviewSession_eq_of_lookup
        (addChatMessage st (InterviewService.userChatMessage sid msg fp)) sid _ s
        (by exact hs)]
      dsimp only
      exact Or.inr ⟨s, rfl, _, rfl, rfl, Or.inl ⟨hidx, rfl, rfl⟩⟩
    · rw [if_neg hidx]
      cases htq : InterviewService.templateAt s.currentQuestionIndex with
      | none => exact Or.inl rfl
      | some tq =>
        dsimp only
        have hd := dispatchAnswer_shape env
          (addChatMessage st (InterviewService.userChatMessage sid msg fp))
          sid msg fp s.currentQuestionIndex tq
        rcases hda : InterviewService.dispatchAnswer env
            (addChatMessage st (InterviewService.userChatMessage sid msg fp))
            sid msg fp s.currentQuestionIndex tq with ⟨stF, e⟩ | ⟨st2, resp, n⟩
        · rw [hda] at hd
          exact Or.inl hd
        · rw [hda] at hd
          dsimp only
          obtain ⟨hsess2, hn⟩ := hd
          have hlk2 : st2.sessions.lookup sid = some s := by
            rw [hsess2]
            exact hs
          by_cases hcomp : (InterviewService.QUESTION_TEMPLATES.length : Int) ≤ n
          · rw [if_pos hcomp]
            have hc := completeInterview_shape env st2 sid s hlk2
            rcases hci : InterviewService.completeInterview env st2 sid with
              ⟨stF, e⟩ | st3
            · rw [hci] at hc
              exact Or.inl (hc.trans (hsess2.trans (by rfl)))
            · rw [hci] at hc
              dsimp only
              obtain ⟨v', hvsess, hvidx, hvtot, hvstat⟩ := hc
              have hlk3 : st3.sessions.lookup sid = some v' := by
                rw [hvsess]
                exact lookup_updateAssoc_self _ _ _ _ hlk2
              rw [updateInterviewSession_eq_of_lookup st3 sid _ v' hlk3]
              dsimp only
              refine Or.inr ⟨s, rfl,
                { v' with currentQuestionIndex := n, status := .completed },
                ?_, hvtot, Or.inr ⟨n,
                (by rw [htq]; exact Option.some_ne_none tq), hn, rfl,
                Or.inr ⟨hcomp, rfl⟩⟩⟩
              show updateAssoc st3.sessions sid _ = _
              rw [hvsess, hsess2, sessions_addChatMessage,
                updateAssoc_updateAssoc]
          · rw [if_neg hcomp]
            have hlt8 : n < (InterviewService.QUESTION_TEMPLATES.length : Int) :=
              lt_of_not_le hcomp
            cases htq2 : InterviewService.templateAt n with
            | none =>
              exact Or.inl (hsess2.trans (by rfl))
            | some nq =>
              dsimp only
              rw [updateInterviewSession_eq_of_lookup st2 sid _ s hlk2]
              dsimp only
              refine Or.inr ⟨s, rfl,
                { s with currentQuestionIndex := n, status := .in_progress },
                ?_, rfl, Or.inr ⟨n,
                (by rw [htq]; exact Option.some_ne_none tq), hn, rfl,
                Or.inl ⟨hlt8, rfl⟩⟩⟩
              cases httq3 : nq.taskType with
              | none =>
                show updateAssoc st2.sessions sid _ = _
                rw [hsess2, sessions_addChatMessage]
              | some tt =>
                dsimp only
                by_cases hcat : (nq.category == Category.practical) = true
                · rw [if_pos hcat]
                  show updateAssoc st2.sessions sid _ = _
                  rw [hsess2, sessions_addChatMessage]
                · rw [if_neg hcat]
                  show updateAssoc st2.sessions sid _ = _
                  rw [hsess2, sessions_addChatMessage]

/-- Invariant of every session the controller can produce: index in
[−1, totalQuestions], totalQuestions is the script length, `abandoned` never
set, and `completed` only at the end of the script. -/
def SessionInv (s : InterviewSession) : Prop :=
  -1 ≤ s.currentQuestionIndex ∧
  s.currentQuestionIndex ≤ (s.totalQuestions : Int) ∧
  s.totalQuestions = InterviewService.QUESTION_TEMPLATES.length ∧
  s.status ≠ .abandoned ∧
  (s.status = .completed → s.currentQuestionIndex = (s.totalQuestions : Int))

/-- One turn preserves the session invariant, never decreases the index,
never changes `totalQuestions`, and changes the status only from
`in_progress` to `completed` — for every session in the store. -/
theorem turn_preserves_inv (env : InterviewService.Env) (st : StorageState)
    (sid msg : String) (fp : Option String) (q : String) (s : InterviewSession)
    (hq : st.sessions.lookup q = some s) (hInv : SessionInv s) :
    ∃ s', (InterviewService.turnState
        (InterviewService.processUserMessage env st sid msg fp)).sessions.lookup q =
          some s' ∧
      SessionInv s' ∧ s.currentQuestionIndex ≤ s'.currentQuestionIndex ∧
      s'.totalQuestions = s.totalQuestions ∧
      (s'.status = s.status ∨
        (s.status = .in_progress ∧ s'.status = .completed)) := by
  have hlen : InterviewService.QUESTION_TEMPLATES.length = 8 := rfl
  rcases turn_sessions_master env st sid msg fp with
    hM | ⟨s0, hs0, v, hv, hvtot, hshape⟩
  · exact ⟨s, by rw [hM]; exact hq, hInv, le_refl _, rfl, Or.inl rfl⟩
  · by_cases hqsid : q = sid
    · subst hqsid
      rw [hq] at hs0
      injection hs0 with hs0e
      subst hs0e
      obtain ⟨h1, h2, h3, h4, h5⟩ := hInv
      have hlk : (InterviewService.turnState
          (InterviewService.processUserMessage env st q msg fp)).sessions.lookup q =
            some v := by
        rw [hv]
        exact lookup_updateAssoc_self _ _ _ _ hq
      rcases hshape with ⟨hm1, hvidx, hvstat⟩ | ⟨n, htne, hn, hvidx, hrest⟩
      · -- the −1 → 0 branch
        refine ⟨v, hlk, ⟨?_, ?_, hvtot.trans h3, ?_, ?_⟩, ?_, hvtot, Or.inl hvstat⟩
        · omega
        · rw [hvidx, hvtot, h3, hlen]
          decide
        · rw [hvstat]
          exact h4
        · intro hcmp
          rw [hvstat] at hcmp
          have := h5 hcmp
          rw [h3, hlen] at this
          omega
        · omega
      · -- a dispatch branch
        obtain ⟨tq, htq⟩ := Option.ne_none_iff_exists'.mp htne
        obtain ⟨hge0, hlt⟩ := templateAt_some_bounds _ _ htq
        rw [hlen] at hlt
        have hsip : s.status = .in_progress := by
          cases hstat : s.status with
          | in_progress => rfl
          | completed =>
            have := h5 hstat
            rw [h3, hlen] at this
            omega
          | abandoned => exact absurd hstat h4
        rcases hrest with ⟨hnlt, hstatIP⟩ | ⟨hnge, hstatC⟩
        · rw [hlen] at hnlt
          refine ⟨v, hlk, ⟨?_, ?_, hvtot.trans h3, ?_, ?_⟩, ?_, hvtot, ?_⟩
          · omega
          · rw [hvidx, hvtot, h3, hlen]
            omega
          · rw [hstatIP]
            exact fun hc => SessionStatus.noConfusion hc
          · intro hcmp
            rw [hstatIP] at hcmp
            exact absurd hcmp (fun hc => SessionStatus.noConfusion hc)
          · omega
          · exact Or.inl (hstatIP.trans hsip.symm)
        · rw [hlen] at hnge
          refine ⟨v, hlk, ⟨?_, ?_, hvtot.trans h3, ?_, ?_⟩, ?_, hvtot, ?_⟩
          · omega
          · rw [hvidx, hvtot, h3, hlen]
            omega
          · rw [hstatC]
            exact fun hc => SessionStatus.noConfusion hc
          · intro _
            rw [hvidx, hvtot, h3, hlen]
            omega
          · omega
          · exact Or.inr ⟨hsip, hstatC⟩
    · refine ⟨s, ?_, hInv, le_refl _, rfl, Or.inl rfl⟩
      rw [hv]
      rw [lookup_updateAssoc_ne _ _ _ _ hqsid]
      exact hq

/-- Any finite sequence of `processUserMessage` turns (with arbitrary
environments, messages and files per turn). -/
inductive Turns : StorageState → StorageState → Prop where
  | refl (st : StorageState) : Turns st st
  | step (st st' : StorageState) (env : InterviewService.Env) (sid msg : String)
      (fp : Option String) : Turns st st' →
      Turns st (InterviewService.turnState
        (InterviewService.processUserMessage env st' sid msg fp))

/-- C2: a started session has index −1 (and satisfies the invariant), and
across every sequence of turns each stored session's `currentQuestionIndex`
is monotonically non-decreasing and never exceeds `totalQuestions`, while the
status only ever moves from `in_progress` to `completed` (`abandoned` is
never set). -/
theorem c2_index_monotone_status :
    (∀ (st : StorageState) (userId newId : String),
      (InterviewService.startInterview st userId newId).2.currentQuestionIndex = -1 ∧
      (InterviewService.startInterview st userId newId).2.status = .in_progress ∧
      SessionInv (InterviewService.startInterview st userId newId).2) ∧
    (∀ st0 st1, Turns st0 st1 → ∀ q s, st0.sessions.lookup q = some s →
      SessionInv s →
      ∃ s', st1.sessions.lookup q = some s' ∧ SessionInv s' ∧
        s.currentQuestionIndex ≤ s'.currentQuestionIndex ∧
        s'.currentQuestionIndex ≤ (s'.totalQuestions : Int) ∧
        s'.totalQuestions = s.totalQuestions ∧
        (s'.status = s.status ∨
          (s.status = .in_progress ∧ s'.status = .completed))) := by
  constructor
  · intro st userId newId
    refine ⟨rfl, rfl, le_refl _, ?_, rfl, ?_, ?_⟩
    · show (-1 : Int) ≤ ((8 : Nat) : Int)
      norm_num
    · show SessionStatus.in_progress ≠ .abandoned
      exact fun h => SessionStatus.noConfusion h
    · show SessionStatus.in_progress = .completed → _
      exact fun h => SessionStatus.noConfusion h
  · intro st0 st1 hT
    induction hT with
    | refl =>
      intro q s hq hInv
      exact ⟨s, hq, hInv, le_refl _, hInv.2.1, rfl, Or.inl rfl⟩
    | step st' env sid msg fp hT ih =>
      intro q s hq hInv
      obtain ⟨s1, hlk1, hInv1, hmono1, hle1, htot1, hstat1⟩ := ih q s hq hInv
      obtain ⟨s2, hlk2, hInv2, hmono2, htot2, hstat2⟩ :=
        turn_preserves_inv env st' sid msg fp q s1 hlk1 hInv1
      refine ⟨s2, hlk2, hInv2, le_trans hmono1 hmono2, hInv2.2.1,
        htot2.trans htot1, ?_⟩
      rcases hstat2 with h21 | ⟨h2ip, h2c⟩
      · rcases hstat1 with h10 | ⟨h1ip, h1c⟩
        · exact Or.inl (h21.trans h10)
        · exact Or.inr ⟨h1ip, h21.trans h1c⟩
      · rcases hstat1 with h10 | ⟨h1ip, h1c⟩
        · exact Or.inr ⟨h10.symm.trans h2ip, h2c⟩
        · exact SessionStatus.noConfusion (h2ip.symm.trans h1c)

def afterFirstTurn : StorageState :=
  InterviewService.turnState
    (InterviewService.processUserMessage envStub startedState "s1" "ready" none)

theorem c2_index_monotone_status_witness :
    ((InterviewService.startInterview emptyStorage "demo-user" "s1").2.currentQuestionIndex = -1 ∧
     (InterviewService.startInterview emptyStorage "demo-user" "s1").2.status = .in_progress ∧
     SessionInv (InterviewService.startInterview emptyStorage "demo-user" "s1").2) ∧
    (∃ s', afterFirstTurn.sessions.lookup "s1" = some s' ∧ SessionInv s' ∧
      startedSession.currentQuestionIndex ≤ s'.currentQuestionIndex ∧
      s'.currentQuestionIndex ≤ (s'.totalQuestions : Int) ∧
      s'.totalQuestions = startedSession.totalQuestions ∧
      (s'.status = startedSession.status ∨
        (startedSession.status = .in_progress ∧ s'.status = .completed))) :=
  ⟨c2_index_monotone_status.1 emptyStorage "demo-user" "s1",
   c2_index_monotone_status.2 startedState afterFirstTurn
     (Turns.step startedState startedState envStub "s1" "ready" none
       (Turns.refl startedState))
     "s1" startedSession rfl (by unfold SessionInv; decide)⟩
